import Mathlib

/-!
# CreateShortcut (go-autostart, `autostart_windows.c`)

A shallow embedding of the single C function `CreateShortcut` together with
an explicit model of the Windows calls it makes.  The platform is modelled as
a record of the values its calls hand back during one run; the effects of the
calls (object state, file store, trace of invocations) are threaded through a
`World` value.
-/

namespace Autostart

/-! ## Machine integers -/

/-- An `HRESULT` is the Windows `LONG`: a signed 32-bit integer. -/
structure HRESULT where
  val : Int
  lo : -2147483648 ≤ val
  hi : val ≤ 2147483647
  deriving DecidableEq

/-- The Windows macro `SUCCEEDED(hr)`, that is `((HRESULT)(hr)) >= 0`. -/
def SUCCEEDED (hr : HRESULT) : Bool := decide (0 ≤ hr.val)

/-- Two's-complement reduction of an integer to the signed 32-bit range. -/
def wrap32 (x : Int) : Int := (x + 2147483648) % 4294967296 - 2147483648

/-- The C expression `hr + c` evaluated in the 32-bit type `long`. -/
def add32 (hr : HRESULT) (c : Int) : Int := wrap32 (hr.val + c)

/-- Conversion of a signed value to the `uint64_t` return type (reduction
modulo `2^64`). -/
def toUInt64 (x : Int) : Nat := (x % 18446744073709551616).toNat

/-! ## Text -/

/-- Narrow text (`char *`): the bytes before the terminating NUL. -/
abbrev CStr := List Nat

/-- Wide text (`WORD[]`): the 16-bit units before the terminating NUL. -/
abbrev WStr := List Nat

/-! ## The platform -/

/-- What the Windows calls hand back during one run of `CreateShortcut`.
Every COM call is made at most once per run, so one value per call describes
a run completely.  The text conversion is a function of the text converted and
of the buffer capacity; it yields the contents of the output buffer after the
call and the returned count (`0` signals failure). -/
structure Platform where
  MAX_PATH : Nat
  hrCoInitializeEx : HRESULT
  MultiByteToWideChar : CStr → Nat → WStr × Int
  hrCoCreateInstance : HRESULT
  hrSetPath : HRESULT
  hrSetArguments : HRESULT
  hrQueryInterface : HRESULT
  hrSave : HRESULT

/-- The operations whose invocation is recorded. -/
inductive Call where
  | CoInitializeEx
  | MultiByteToWideChar (src : CStr) (cch : Nat)
  | CoCreateInstance
  | SetPath (pszFile : CStr)
  | SetArguments (pszArgs : CStr)
  | QueryInterface
  | Save (pszFileName : WStr) (fRemember : Bool)
  | ReleaseIPF
  | ReleaseISL
  deriving DecidableEq, Repr

/-- The stored state of a shell link: its target and its argument string. -/
structure ShellLinkData where
  target : CStr
  arguments : CStr
  deriving DecidableEq, Repr

/-- The state the calls act on: the shell-link object (once instantiated), the
shortcut files on disk keyed by wide-text path, and the calls made so far. -/
structure World where
  link : Option ShellLinkData
  files : WStr → Option ShellLinkData
  trace : List Call

/-- Append one call to the trace. -/
def World.log (w : World) (c : Call) : World :=
  { w with trace := w.trace ++ [c] }

/-- Model of `CoInitializeEx(NULL, COINIT_MULTITHREADED)`. -/
def CoInitializeEx (p : Platform) (w : World) : HRESULT × World :=
  (p.hrCoInitializeEx, w.log Call.CoInitializeEx)

/-- Model of `MultiByteToWideChar(CP_ACP, 0, src, -1, dst, cch)`: the buffer
contents after the call, the returned count, and the world. -/
def MultiByteToWideChar (p : Platform) (src : CStr) (cch : Nat) (w : World) :
    WStr × Int × World :=
  ((p.MultiByteToWideChar src cch).1, (p.MultiByteToWideChar src cch).2,
    w.log (Call.MultiByteToWideChar src cch))

/-- Model of `CoCreateInstance(&CLSID_ShellLink, ...)`: on success a fresh
shell-link object with empty target and arguments exists. -/
def CoCreateInstance (p : Platform) (w : World) : HRESULT × World :=
  let w1 := w.log Call.CoCreateInstance
  if SUCCEEDED p.hrCoCreateInstance then
    (p.hrCoCreateInstance, { w1 with link := some ⟨[], []⟩ })
  else (p.hrCoCreateInstance, w1)

/-- Model of `IShellLink::SetPath`: on success the object stores the target. -/
def SetPath (p : Platform) (pszFile : CStr) (w : World) : HRESULT × World :=
  let w1 := w.log (Call.SetPath pszFile)
  if SUCCEEDED p.hrSetPath then
    (p.hrSetPath, { w1 with link := w1.link.map fun d => { d with target := pszFile } })
  else (p.hrSetPath, w1)

/-- Model of `IShellLink::SetArguments`: on success the object stores the
argument string. -/
def SetArguments (p : Platform) (pszArgs : CStr) (w : World) : HRESULT × World :=
  let w1 := w.log (Call.SetArguments pszArgs)
  if SUCCEEDED p.hrSetArguments then
    (p.hrSetArguments, { w1 with link := w1.link.map fun d => { d with arguments := pszArgs } })
  else (p.hrSetArguments, w1)

/-- Model of `IShellLink::QueryInterface(&IID_IPersistFile, ...)`. -/
def QueryInterface (p : Platform) (w : World) : HRESULT × World :=
  (p.hrQueryInterface, w.log Call.QueryInterface)

/-- Model of `IPersistFile::Save`: on success the file at the given path holds
the object's stored state. -/
def Save (p : Platform) (pszFileName : WStr) (fRemember : Bool) (w : World) :
    HRESULT × World :=
  let w1 := w.log (Call.Save pszFileName fRemember)
  if SUCCEEDED p.hrSave then
    (p.hrSave,
      { w1 with files := fun k => if k = pszFileName then w1.link else w1.files k })
  else (p.hrSave, w1)

/-- Model of `pIPF->lpVtbl->Release(pIPF)`. -/
def ReleaseIPF (w : World) : World := w.log Call.ReleaseIPF

/-- Model of `pISL->lpVtbl->Release(pISL)`. -/
def ReleaseISL (w : World) : World := w.log Call.ReleaseISL

/-- The Windows constant `FALSE`. -/
def FALSE : Bool := false

/-! ## The function -/

/-- The C function `CreateShortcut(shortcutA, path, args)`: the returned
`uint64_t` and the world after the call. -/
def CreateShortcut (p : Platform) (shortcutA path args : CStr) (w : World) :
    Nat × World :=
  let w := (CoInitializeEx p w).2
  let conv := MultiByteToWideChar p shortcutA p.MAX_PATH w
  let shortcutW := conv.1
  let w := conv.2.2
  let r := CoCreateInstance p w
  if !SUCCEEDED r.1 then (toUInt64 (add32 r.1 0x01000000), r.2) else
  let r := SetPath p path r.2
  if !SUCCEEDED r.1 then (toUInt64 (add32 r.1 0x02000000), r.2) else
  let r := SetArguments p args r.2
  if !SUCCEEDED r.1 then (toUInt64 (add32 r.1 0x03000000), r.2) else
  let r := QueryInterface p r.2
  if !SUCCEEDED r.1 then (toUInt64 (add32 r.1 0x04000000), r.2) else
  let r := Save p shortcutW FALSE r.2
  if !SUCCEEDED r.1 then (toUInt64 (add32 r.1 0x05000000), r.2) else
  let w := ReleaseIPF r.2
  let w := ReleaseISL w
  (0x0, w)

/-! ## Vocabulary of the specification -/

/-- The first gated stage to fail in a run: its number (1 = component
instantiation, 2 = target-path assignment, 3 = arguments assignment, 4 =
file-interface acquisition, 5 = save) and the HRESULT it returned. -/
def firstFailure (p : Platform) : Option (Nat × HRESULT) :=
  if p.hrCoCreateInstance.val < 0 then some (1, p.hrCoCreateInstance)
  else if p.hrSetPath.val < 0 then some (2, p.hrSetPath)
  else if p.hrSetArguments.val < 0 then some (3, p.hrSetArguments)
  else if p.hrQueryInterface.val < 0 then some (4, p.hrQueryInterface)
  else if p.hrSave.val < 0 then some (5, p.hrSave)
  else none

/-- All five gated stages succeed (each HRESULT is `>= 0`). -/
def allSucceed (p : Platform) : Prop :=
  0 ≤ p.hrCoCreateInstance.val ∧ 0 ≤ p.hrSetPath.val ∧ 0 ≤ p.hrSetArguments.val ∧
    0 ≤ p.hrQueryInterface.val ∧ 0 ≤ p.hrSave.val

instance (p : Platform) : Decidable (allSucceed p) := by
  unfold allSucceed; infer_instance

/-- The stage marker of stage `k`: `k * 0x01000000`. -/
def marker (k : Nat) : Int := (k : Int) * 0x01000000

/-- The number of gated stages a run invokes: up to and including the first
failing one, or all five. -/
def stagesRun (p : Platform) : Nat :=
  match firstFailure p with
  | some (k, _) => k
  | none => 5

/-- The five gated calls in program order, with the arguments the run passes. -/
def stageCalls (shortcutW : WStr) (path args : CStr) : List Call :=
  [Call.CoCreateInstance, Call.SetPath path, Call.SetArguments args,
    Call.QueryInterface, Call.Save shortcutW false]

/-- Is the call one of the five gated stages? -/
def Call.isStage : Call → Bool
  | Call.CoCreateInstance => true
  | Call.SetPath _ => true
  | Call.SetArguments _ => true
  | Call.QueryInterface => true
  | Call.Save _ _ => true
  | _ => false

/-- Is the call a `Release`? -/
def Call.isRelease : Call → Bool
  | Call.ReleaseIPF => true
  | Call.ReleaseISL => true
  | _ => false

/-- The calls made between an earlier world and a later one. -/
def callsMade (w0 w1 : World) : List Call := w1.trace.drop w0.trace.length

/-- Bits 24..31 of a status code: the byte the stage markers are written in. -/
def byte3 (x : Nat) : Nat := (x / 16777216) % 256

/-- Bits 56..63 of a status code: the top byte of the 64-bit value. -/
def byte7 (x : Nat) : Nat := (x / 72057594037927936) % 256

/-- The unsigned 32-bit pattern of an HRESULT. -/
def HRESULT.bits (hr : HRESULT) : Nat := (hr.val % 4294967296).toNat

/-! ## Sample platforms -/

/-- The HRESULT `S_OK`. -/
def S_OK : HRESULT := ⟨0, by decide, by decide⟩

/-- The HRESULT `REGDB_E_CLASSNOTREG` (`0x80040154`). -/
def REGDB_E_CLASSNOTREG : HRESULT := ⟨-2147221164, by decide, by decide⟩

/-- The HRESULT `E_ACCESSDENIED` (`0x80070005`). -/
def E_ACCESSDENIED : HRESULT := ⟨-2147024891, by decide, by decide⟩

/-- A conversion that widens each byte and reports the count with the NUL. -/
def widen (src : CStr) (cch : Nat) : WStr × Int :=
  if src.length < cch then (src, (src.length : Int) + 1) else ([], 0)

/-- A platform on which every call succeeds. -/
def okPlatform : Platform :=
  { MAX_PATH := 260, hrCoInitializeEx := S_OK, MultiByteToWideChar := widen,
    hrCoCreateInstance := S_OK, hrSetPath := S_OK, hrSetArguments := S_OK,
    hrQueryInterface := S_OK, hrSave := S_OK }

/-- The world before the first call: no object, no files, empty trace. -/
def emptyWorld : World := { link := none, files := fun _ => none, trace := [] }

/-- The HRESULT `RPC_E_CHANGED_MODE` (`0x80010106`). -/
def RPC_E_CHANGED_MODE : HRESULT := ⟨-2147417850, by decide, by decide⟩

/-- The failing HRESULT with bit pattern `0xFF000000`, the negation of the
first stage marker. -/
def hrMinusMarker1 : HRESULT := ⟨-16777216, by decide, by decide⟩

/-- The failing HRESULT with bit pattern `0x81040154`. -/
def hr81040154 : HRESULT := ⟨-2130443948, by decide, by decide⟩

/-- The failing HRESULT with bit pattern `0xC0000005`. -/
def hrC0000005 : HRESULT := ⟨-1073741819, by decide, by decide⟩

/-- Component instantiation fails with `0xC0000005`. -/
def violationPlatform : Platform :=
  { okPlatform with hrCoCreateInstance := hrC0000005 }

/-- Component instantiation fails with `0xFF000000`. -/
def collisionPlatform : Platform :=
  { okPlatform with hrCoCreateInstance := hrMinusMarker1 }

/-- Component instantiation fails with `REGDB_E_CLASSNOTREG`. -/
def notRegisteredPlatform : Platform :=
  { okPlatform with hrCoCreateInstance := REGDB_E_CLASSNOTREG }

/-- Component instantiation fails with `0x81040154`. -/
def stage1Platform : Platform :=
  { okPlatform with hrCoCreateInstance := hr81040154 }

/-- Target-path assignment fails with `REGDB_E_CLASSNOTREG`. -/
def stage2Platform : Platform :=
  { okPlatform with hrSetPath := REGDB_E_CLASSNOTREG }

/-- The save fails with `E_ACCESSDENIED`. -/
def deniedPlatform : Platform :=
  { okPlatform with hrSave := E_ACCESSDENIED }

/-- Runtime initialization fails and the text conversion fails (count `0`,
empty buffer); the five gated stages succeed. -/
def uncheckedPlatform : Platform :=
  { okPlatform with hrCoInitializeEx := RPC_E_CHANGED_MODE,
                    MultiByteToWideChar := fun _ _ => ([], 0) }

/-! ## Auxiliary lemmas -/

theorem add32_marker (hr : HRESULT) (k : Nat) (hneg : hr.val < 0) (hk : k ≤ 5) :
    add32 hr (marker k) = hr.val + marker k := by
  have h1 := hr.lo
  unfold add32 wrap32 marker
  omega

theorem SUCCEEDED_iff (hr : HRESULT) : SUCCEEDED hr = true ↔ 0 ≤ hr.val := by
  simp [SUCCEEDED]

theorem CreateShortcut_result (p : Platform) (shortcutA path args : CStr) (w : World) :
    (CreateShortcut p shortcutA path args w).1 =
      match firstFailure p with
      | some (k, hr) => toUInt64 (add32 hr (marker k))
      | none => 0 := by
  unfold CreateShortcut firstFailure CoCreateInstance SetPath SetArguments QueryInterface Save
  by_cases h1 : 0 ≤ p.hrCoCreateInstance.val <;>
  by_cases h2 : 0 ≤ p.hrSetPath.val <;>
  by_cases h3 : 0 ≤ p.hrSetArguments.val <;>
  by_cases h4 : 0 ≤ p.hrQueryInterface.val <;>
  by_cases h5 : 0 ≤ p.hrSave.val <;>
  simp [SUCCEEDED, marker, h1, h2, h3, h4, h5, not_lt.mpr, lt_of_not_le]

theorem CreateShortcut_trace (p : Platform) (shortcutA path args : CStr) (w : World) :
    (CreateShortcut p shortcutA path args w).2.trace =
      w.trace ++ [Call.CoInitializeEx, Call.MultiByteToWideChar shortcutA p.MAX_PATH] ++
        (stageCalls (p.MultiByteToWideChar shortcutA p.MAX_PATH).1 path args).take (stagesRun p) ++
        (if (firstFailure p).isNone then [Call.ReleaseIPF, Call.ReleaseISL] else []) := by
  unfold CreateShortcut stagesRun firstFailure CoCreateInstance SetPath SetArguments
    QueryInterface Save CoInitializeEx MultiByteToWideChar ReleaseIPF ReleaseISL stageCalls
  by_cases h1 : 0 ≤ p.hrCoCreateInstance.val <;>
  by_cases h2 : 0 ≤ p.hrSetPath.val <;>
  by_cases h3 : 0 ≤ p.hrSetArguments.val <;>
  by_cases h4 : 0 ≤ p.hrQueryInterface.val <;>
  by_cases h5 : 0 ≤ p.hrSave.val <;>
  simp [SUCCEEDED, World.log, FALSE, h1, h2, h3, h4, h5, not_lt.mpr, lt_of_not_le]

theorem callsMade_CreateShortcut (p : Platform) (shortcutA path args : CStr) (w : World) :
    callsMade w (CreateShortcut p shortcutA path args w).2 =
      [Call.CoInitializeEx, Call.MultiByteToWideChar shortcutA p.MAX_PATH] ++
        (stageCalls (p.MultiByteToWideChar shortcutA p.MAX_PATH).1 path args).take (stagesRun p) ++
        (if (firstFailure p).isNone then [Call.ReleaseIPF, Call.ReleaseISL] else []) := by
  unfold callsMade
  rw [CreateShortcut_trace, List.append_assoc, List.append_assoc, List.drop_left]
  simp

theorem firstFailure_stage {p : Platform} {k : Nat} {hr : HRESULT}
    (h : firstFailure p = some (k, hr)) : 1 ≤ k ∧ k ≤ 5 ∧ hr.val < 0 := by
  unfold firstFailure at h
  split_ifs at h <;> simp at h <;> obtain ⟨rfl, rfl⟩ := h <;> simp [*]

theorem firstFailure_none_iff (p : Platform) : firstFailure p = none ↔ allSucceed p := by
  unfold firstFailure allSucceed
  split_ifs <;> simp <;> omega

theorem result_of_firstFailure {p : Platform} {k : Nat} {hr : HRESULT}
    (h : firstFailure p = some (k, hr)) (shortcutA path args : CStr) (w : World) :
    (CreateShortcut p shortcutA path args w).1 = toUInt64 (hr.val + marker k) := by
  obtain ⟨_, h5, hneg⟩ := firstFailure_stage h
  rw [CreateShortcut_result, h]
  simp only [add32_marker hr k hneg h5]

theorem result_of_allSucceed {p : Platform} (h : allSucceed p)
    (shortcutA path args : CStr) (w : World) :
    (CreateShortcut p shortcutA path args w).1 = 0 := by
  rw [CreateShortcut_result, (firstFailure_none_iff p).mpr h]

theorem byte3_toUInt64 (hr : HRESULT) (k : Nat) :
    byte3 (toUInt64 (hr.val + marker k)) = (byte3 hr.bits + k) % 256 := by
  have h1 := hr.lo
  have h2 := hr.hi
  unfold byte3 toUInt64 HRESULT.bits marker
  omega

theorem files_of_allSucceed {p : Platform} (h : allSucceed p)
    (shortcutA path args : CStr) (w : World) :
    (CreateShortcut p shortcutA path args w).2.files
        (p.MultiByteToWideChar shortcutA p.MAX_PATH).1 = some ⟨path, args⟩ := by
  obtain ⟨h1, h2, h3, h4, h5⟩ := h
  unfold CreateShortcut CoCreateInstance SetPath SetArguments QueryInterface Save
    CoInitializeEx MultiByteToWideChar ReleaseIPF ReleaseISL
  simp [SUCCEEDED, World.log, h1, h2, h3, h4, h5]

theorem stagesRun_of_allSucceed {p : Platform} (h : allSucceed p) : stagesRun p = 5 := by
  unfold stagesRun
  rw [(firstFailure_none_iff p).mpr h]

/-! ## The claims -/

/-- C1: when all five gated stages succeed (the run reaches `return 0x0`),
`CreateShortcut` returns zero and the file at the wide-text conversion of
`shortcutA` holds exactly `path` as target and `args` as argument string;
`SetPath` was called with `path`, `SetArguments` with `args`, and `Save` with
the converted path and the remember flag `FALSE`.  `args` may be empty. -/
theorem CreateShortcut_success_writes_file (p : Platform) (shortcutA path args : CStr)
    (w : World) (h : allSucceed p) :
    (CreateShortcut p shortcutA path args w).1 = 0 ∧
    (CreateShortcut p shortcutA path args w).2.files
        (p.MultiByteToWideChar shortcutA p.MAX_PATH).1 = some ⟨path, args⟩ ∧
    Call.SetPath path ∈ callsMade w (CreateShortcut p shortcutA path args w).2 ∧
    Call.SetArguments args ∈ callsMade w (CreateShortcut p shortcutA path args w).2 ∧
    Call.Save (p.MultiByteToWideChar shortcutA p.MAX_PATH).1 false ∈
      callsMade w (CreateShortcut p shortcutA path args w).2 := by
  refine ⟨result_of_allSucceed h _ _ _ _, files_of_allSucceed h _ _ _ _, ?_, ?_, ?_⟩ <;>
  · rw [callsMade_CreateShortcut, stagesRun_of_allSucceed h]
    simp [stageCalls]

/-- Witness for C1: on the all-succeeding platform, with empty arguments, the
shortcut file holds the target and the empty argument string. -/
theorem CreateShortcut_success_writes_file_witness :
    allSucceed okPlatform ∧
    (CreateShortcut okPlatform [97, 46, 108, 110, 107] [99, 109, 100] [] emptyWorld).1 = 0 ∧
    (CreateShortcut okPlatform [97, 46, 108, 110, 107] [99, 109, 100] [] emptyWorld).2.files
        [97, 46, 108, 110, 107] = some ⟨[99, 109, 100], []⟩ :=
  have h := CreateShortcut_success_writes_file okPlatform [97, 46, 108, 110, 107]
    [99, 109, 100] [] emptyWorld (by decide)
  ⟨by decide, h.1, h.2.1⟩

/-- Counterexample for C2: component instantiation fails with the HRESULT
`0xFF000000`, yet `CreateShortcut` returns exactly `0`. -/
theorem CreateShortcut_zero_on_failure :
    ¬ allSucceed collisionPlatform ∧
    firstFailure collisionPlatform = some (1, hrMinusMarker1) ∧
    (CreateShortcut collisionPlatform [97] [98] [99] emptyWorld).1 = 0 := by
  decide

/-- C2 (amended): provided the first failing stage `k`, if any, did not return
exactly the negation of its own marker `-(k * 0x01000000)`, `CreateShortcut`
returns `0` if and only if all five gated stages succeed. -/
theorem CreateShortcut_zero_iff_success (p : Platform) (shortcutA path args : CStr)
    (w : World)
    (h : ∀ k hr, firstFailure p = some (k, hr) → hr.val ≠ -marker k) :
    (CreateShortcut p shortcutA path args w).1 = 0 ↔ allSucceed p := by
  constructor
  · intro h0
    rw [← firstFailure_none_iff]
    cases hf : firstFailure p with
    | none => rfl
    | some kh =>
      obtain ⟨k, hr⟩ := kh
      exfalso
      have hne := h k hr hf
      obtain ⟨_, h5, hneg⟩ := firstFailure_stage hf
      rw [result_of_firstFailure hf] at h0
      have h1 := hr.lo
      unfold toUInt64 at h0
      unfold marker at h0 hne
      omega
  · intro hs
    exact result_of_allSucceed hs _ _ _ _

/-- Witness for C2 (amended): a save failing with `E_ACCESSDENIED` meets the
hypothesis, the run fails and the returned code is not zero. -/
theorem CreateShortcut_zero_iff_success_witness :
    (∀ k hr, firstFailure deniedPlatform = some (k, hr) → hr.val ≠ -marker k) ∧
    ((CreateShortcut deniedPlatform [97] [98] [99] emptyWorld).1 = 0 ↔
      allSucceed deniedPlatform) :=
  have hyp : ∀ k hr, firstFailure deniedPlatform = some (k, hr) → hr.val ≠ -marker k := by
    intro k hr hf
    have h5 : firstFailure deniedPlatform = some (5, E_ACCESSDENIED) := by decide
    rw [h5] at hf
    simp only [Option.some.injEq, Prod.mk.injEq] at hf
    obtain ⟨rfl, rfl⟩ := hf
    decide
  ⟨hyp, CreateShortcut_zero_iff_success deniedPlatform [97] [98] [99] emptyWorld hyp⟩

/-- C3: when stage `k` is the first to fail, with platform error code `hr`, the
returned status code is `hr + k * 0x01000000` converted to `uint64_t`, with
`k` one of 1..5. -/
theorem CreateShortcut_failure_code (p : Platform) (shortcutA path args : CStr)
    (w : World) (k : Nat) (hr : HRESULT) (h : firstFailure p = some (k, hr)) :
    (CreateShortcut p shortcutA path args w).1 = toUInt64 (hr.val + (k : Int) * 0x01000000) ∧
    1 ≤ k ∧ k ≤ 5 := by
  obtain ⟨h1, h5, _⟩ := firstFailure_stage h
  exact ⟨result_of_firstFailure h _ _ _ _, h1, h5⟩

/-- Witness for C3: the first four stages succeed and the save fails with
`E_ACCESSDENIED` (`0x80070005`); the code is `0x80070005 + 0x05000000`
sign-extended, `0xFFFFFFFF85070005`. -/
theorem CreateShortcut_failure_code_witness :
    firstFailure deniedPlatform = some (5, E_ACCESSDENIED) ∧
    (CreateShortcut deniedPlatform [97] [98] [99] emptyWorld).1 = 0xFFFFFFFF85070005 :=
  ⟨by decide,
   (CreateShortcut_failure_code deniedPlatform [97] [98] [99] emptyWorld 5 E_ACCESSDENIED
      (by decide)).1.trans (by decide)⟩

/-- Counterexample for C4: component instantiation (stage 1) fails with
`REGDB_E_CLASSNOTREG` (`0x80040154`); the returned code is
`0xFFFFFFFF81040154`, whose byte at bits 24..31 is `0x81` and whose top byte
is `0xFF`: neither is one of `0x01..0x05`, and neither is the stage number. -/
theorem CreateShortcut_high_byte_not_stage :
    firstFailure notRegisteredPlatform = some (1, REGDB_E_CLASSNOTREG) ∧
    (CreateShortcut notRegisteredPlatform [97] [98] [99] emptyWorld).1 = 0xFFFFFFFF81040154 ∧
    byte3 (CreateShortcut notRegisteredPlatform [97] [98] [99] emptyWorld).1 = 0x81 ∧
    byte7 (CreateShortcut notRegisteredPlatform [97] [98] [99] emptyWorld).1 = 0xFF ∧
    byte3 (CreateShortcut notRegisteredPlatform [97] [98] [99] emptyWorld).1 ∉ [1, 2, 3, 4, 5] ∧
    byte7 (CreateShortcut notRegisteredPlatform [97] [98] [99] emptyWorld).1 ∉ [1, 2, 3, 4, 5] := by
  decide

/-- C4 (amended): when stage `k` is the first to fail, with platform error code
`hr`, the byte at bits 24..31 of the returned status code is the sum modulo 256
of the high-order byte of `hr` and the stage number `k`, with `k` one of
1..5. -/
theorem CreateShortcut_marker_byte (p : Platform) (shortcutA path args : CStr)
    (w : World) (k : Nat) (hr : HRESULT) (h : firstFailure p = some (k, hr)) :
    byte3 (CreateShortcut p shortcutA path args w).1 = (byte3 hr.bits + k) % 256 ∧
    1 ≤ k ∧ k ≤ 5 := by
  obtain ⟨h1, h5, _⟩ := firstFailure_stage h
  rw [result_of_firstFailure h]
  exact ⟨byte3_toUInt64 hr k, h1, h5⟩

/-- Witness for C4 (amended): the save (stage 5) fails with `E_ACCESSDENIED`,
whose high-order byte is `0x80`; the marker byte of the code is `0x85`. -/
theorem CreateShortcut_marker_byte_witness :
    firstFailure deniedPlatform = some (5, E_ACCESSDENIED) ∧
    byte3 E_ACCESSDENIED.bits = 0x80 ∧
    byte3 (CreateShortcut deniedPlatform [97] [98] [99] emptyWorld).1 = 0x85 :=
  ⟨by decide, by decide,
   (CreateShortcut_marker_byte deniedPlatform [97] [98] [99] emptyWorld 5 E_ACCESSDENIED
      (by decide)).1.trans (by decide)⟩

/-- Counterexample for C5: one run fails at stage 1 with `0x81040154`, another
at stage 2 with `0x80040154`; both return `0xFFFFFFFF82040154`. -/
theorem CreateShortcut_stages_collide :
    firstFailure stage1Platform = some (1, hr81040154) ∧
    firstFailure stage2Platform = some (2, REGDB_E_CLASSNOTREG) ∧
    (CreateShortcut stage1Platform [97] [98] [99] emptyWorld).1 = 0xFFFFFFFF82040154 ∧
    (CreateShortcut stage2Platform [97] [98] [99] emptyWorld).1 = 0xFFFFFFFF82040154 ∧
    (CreateShortcut stage1Platform [97] [98] [99] emptyWorld).1 =
      (CreateShortcut stage2Platform [97] [98] [99] emptyWorld).1 := by
  decide

/-- C5 (amended): for two failing runs whose first failing stages `k1` and
`k2` differ, with platform error codes `hr1` and `hr2`, the returned status
codes are equal exactly when `hr1 + k1 * 0x01000000 = hr2 + k2 * 0x01000000`;
otherwise they are different, in particular whenever the two error codes are
equal. -/
theorem CreateShortcut_stage_distinguished (p q : Platform)
    (shortcutA path args shortcutA2 path2 args2 : CStr) (w w2 : World)
    (k1 k2 : Nat) (hr1 hr2 : HRESULT)
    (hp : firstFailure p = some (k1, hr1)) (hq : firstFailure q = some (k2, hr2))
    (hk : k1 ≠ k2) :
    ((CreateShortcut p shortcutA path args w).1 =
        (CreateShortcut q shortcutA2 path2 args2 w2).1 ↔
      hr1.val + (k1 : Int) * 0x01000000 = hr2.val + (k2 : Int) * 0x01000000) ∧
    (hr1.val = hr2.val →
      (CreateShortcut p shortcutA path args w).1 ≠
        (CreateShortcut q shortcutA2 path2 args2 w2).1) := by
  obtain ⟨_, a5, _⟩ := firstFailure_stage hp
  obtain ⟨_, b5, _⟩ := firstFailure_stage hq
  have l1 := hr1.lo
  have u1 := hr1.hi
  have l2 := hr2.lo
  have u2 := hr2.hi
  rw [result_of_firstFailure hp, result_of_firstFailure hq]
  unfold toUInt64 marker
  refine ⟨⟨fun h => ?_, fun h => ?_⟩, fun h e => ?_⟩ <;> omega

/-- Witness for C5 (amended): `0xC0000005` at stage 1 and `E_ACCESSDENIED`
(`0x80070005`) at stage 5 differ in their high-order byte and give different
sums, hence different status codes. -/
theorem CreateShortcut_stage_distinguished_witness :
    firstFailure violationPlatform = some (1, hrC0000005) ∧
    firstFailure deniedPlatform = some (5, E_ACCESSDENIED) ∧
    hrC0000005.val + 1 * 0x01000000 ≠ E_ACCESSDENIED.val + 5 * 0x01000000 ∧
    (CreateShortcut violationPlatform [97] [98] [99] emptyWorld).1 ≠
      (CreateShortcut deniedPlatform [97] [98] [99] emptyWorld).1 :=
  ⟨by decide, by decide, by decide,
   fun e => absurd
     ((CreateShortcut_stage_distinguished violationPlatform deniedPlatform
       [97] [98] [99] [97] [98] [99] emptyWorld emptyWorld 1 5
       hrC0000005 E_ACCESSDENIED (by decide) (by decide) (by decide)).1.mp e)
     (by decide)⟩

/-- C6: the gated stages a run invokes are, in order, the first `stagesRun p`
of `CoCreateInstance`, `SetPath`, `SetArguments`, `QueryInterface`, `Save`:
all the stages up to and including the first failing one (all five when none
fails), each once, and none after a failure. -/
theorem CreateShortcut_short_circuits (p : Platform) (shortcutA path args : CStr)
    (w : World) :
    (callsMade w (CreateShortcut p shortcutA path args w).2).filter Call.isStage =
      (stageCalls (p.MultiByteToWideChar shortcutA p.MAX_PATH).1 path args).take
        (stagesRun p) ∧
    ((callsMade w (CreateShortcut p shortcutA path args w).2).filter Call.isStage).Nodup := by
  have hall : ∀ c ∈ (stageCalls (p.MultiByteToWideChar shortcutA p.MAX_PATH).1 path args).take
      (stagesRun p), Call.isStage c = true := by
    intro c hc
    have hc2 := List.mem_of_mem_take hc
    simp [stageCalls] at hc2
    rcases hc2 with rfl | rfl | rfl | rfl | rfl <;> rfl
  have hfilter : (callsMade w (CreateShortcut p shortcutA path args w).2).filter Call.isStage =
      (stageCalls (p.MultiByteToWideChar shortcutA p.MAX_PATH).1 path args).take
        (stagesRun p) := by
    rw [callsMade_CreateShortcut, List.filter_append, List.filter_append,
      List.filter_eq_self.mpr hall]
    cases (firstFailure p).isNone <;> simp [Call.isStage]
  refine ⟨hfilter, ?_⟩
  rw [hfilter]
  apply List.Nodup.sublist (List.take_sublist _ _)
  simp [stageCalls]

/-- C7: a run invokes `Release` on the file-persistence interface and then on
the shell-link object, each exactly once, when all five gated stages succeed
(and it then returns zero), and invokes no `Release` at all otherwise. -/
theorem CreateShortcut_release_only_on_success (p : Platform)
    (shortcutA path args : CStr) (w : World) :
    (callsMade w (CreateShortcut p shortcutA path args w).2).filter Call.isRelease =
      (if allSucceed p then [Call.ReleaseIPF, Call.ReleaseISL] else []) ∧
    (allSucceed p → (CreateShortcut p shortcutA path args w).1 = 0) := by
  have hnone : ∀ c ∈ (stageCalls (p.MultiByteToWideChar shortcutA p.MAX_PATH).1 path args).take
      (stagesRun p), ¬ Call.isRelease c = true := by
    intro c hc
    have hc2 := List.mem_of_mem_take hc
    simp [stageCalls] at hc2
    rcases hc2 with rfl | rfl | rfl | rfl | rfl <;> simp [Call.isRelease]
  refine ⟨?_, fun hs => result_of_allSucceed hs _ _ _ _⟩
  rw [callsMade_CreateShortcut, List.filter_append, List.filter_append,
    List.filter_eq_nil_iff.mpr hnone]
  by_cases hs : allSucceed p
  · simp [(firstFailure_none_iff p).mpr hs, hs, Call.isRelease]
  · have hf : firstFailure p ≠ none := fun h0 => hs ((firstFailure_none_iff p).mp h0)
    have hisNone : (firstFailure p).isNone = false := by
      cases hff : firstFailure p with
      | none => exact absurd hff hf
      | some _ => rfl
    simp [hisNone, hs, Call.isRelease]

/-- Witness for C7: on the all-succeeding platform the run ends with the two
releases and returns zero; when the save fails nothing is released. -/
theorem CreateShortcut_release_only_on_success_witness :
    allSucceed okPlatform ∧
    (CreateShortcut okPlatform [97] [98] [99] emptyWorld).1 = 0 ∧
    (callsMade emptyWorld (CreateShortcut okPlatform [97] [98] [99] emptyWorld).2).filter
      Call.isRelease = [Call.ReleaseIPF, Call.ReleaseISL] ∧
    (callsMade emptyWorld (CreateShortcut deniedPlatform [97] [98] [99] emptyWorld).2).filter
      Call.isRelease = [] :=
  ⟨by decide,
   (CreateShortcut_release_only_on_success okPlatform [97] [98] [99] emptyWorld).2 (by decide),
   by decide, by decide⟩

/-- C8: when a run fails, with first failing platform error code `hr`, the low
24 bits of the returned status code are the low 24 bits of `hr`, whichever
stage failed. -/
theorem CreateShortcut_low_bits (p : Platform) (shortcutA path args : CStr)
    (w : World) (k : Nat) (hr : HRESULT) (h : firstFailure p = some (k, hr)) :
    ((CreateShortcut p shortcutA path args w).1 : Int) % 16777216 = hr.val % 16777216 := by
  rw [result_of_firstFailure h]
  unfold toUInt64 marker
  omega

/-- Witness for C8: the save fails with `E_ACCESSDENIED` (`0x80070005`); the
low 24 bits of the code are `0x070005`. -/
theorem CreateShortcut_low_bits_witness :
    firstFailure deniedPlatform = some (5, E_ACCESSDENIED) ∧
    E_ACCESSDENIED.val % 16777216 = 0x070005 ∧
    ((CreateShortcut deniedPlatform [97] [98] [99] emptyWorld).1 : Int) % 16777216 =
      E_ACCESSDENIED.val % 16777216 :=
  ⟨by decide, by decide,
   CreateShortcut_low_bits deniedPlatform [97] [98] [99] emptyWorld 5 E_ACCESSDENIED
     (by decide)⟩

/-- C9: two runs in which the five gated stages return the same HRESULTs return
the same status code and invoke the same number of gated stages, whatever
`CoInitializeEx` returned and whatever the text conversion returned (count and
buffer) in either run. -/
theorem CreateShortcut_ignores_unchecked_results (p q : Platform)
    (shortcutA path args shortcutA2 path2 args2 : CStr) (w w2 : World)
    (h1 : p.hrCoCreateInstance = q.hrCoCreateInstance)
    (h2 : p.hrSetPath = q.hrSetPath)
    (h3 : p.hrSetArguments = q.hrSetArguments)
    (h4 : p.hrQueryInterface = q.hrQueryInterface)
    (h5 : p.hrSave = q.hrSave) :
    (CreateShortcut p shortcutA path args w).1 =
      (CreateShortcut q shortcutA2 path2 args2 w2).1 ∧
    ((callsMade w (CreateShortcut p shortcutA path args w).2).filter Call.isStage).length =
      ((callsMade w2 (CreateShortcut q shortcutA2 path2 args2 w2).2).filter
        Call.isStage).length := by
  have hff : firstFailure p = firstFailure q := by
    unfold firstFailure
    rw [h1, h2, h3, h4, h5]
  have hrun : stagesRun p = stagesRun q := by
    unfold stagesRun
    rw [hff]
  have hlen : ∀ (p : Platform) (a b c : CStr) (w : World),
      ((callsMade w (CreateShortcut p a b c w).2).filter Call.isStage).length =
        min (stagesRun p) 5 := by
    intro p a b c w
    rw [callsMade_CreateShortcut, List.filter_append, List.filter_append]
    have hall : ∀ x ∈ (stageCalls (p.MultiByteToWideChar a p.MAX_PATH).1 b c).take
        (stagesRun p), Call.isStage x = true := by
      intro x hx
      have hx2 := List.mem_of_mem_take hx
      simp [stageCalls] at hx2
      rcases hx2 with rfl | rfl | rfl | rfl | rfl <;> rfl
    rw [List.filter_eq_self.mpr hall]
    cases (firstFailure p).isNone <;> simp [Call.isStage, stageCalls]
  refine ⟨?_, ?_⟩
  · rw [CreateShortcut_result, CreateShortcut_result, hff]
  · rw [hlen, hlen, hrun]

/-- Witness for C9: with all five stages succeeding, a run whose runtime
initialization failed and whose text conversion returned `0` returns the same
code, `0`, as a run where both went well, and invokes all five stages. -/
theorem CreateShortcut_ignores_unchecked_results_witness :
    uncheckedPlatform.hrCoInitializeEx.val < 0 ∧
    (uncheckedPlatform.MultiByteToWideChar [97] uncheckedPlatform.MAX_PATH).2 = 0 ∧
    (CreateShortcut okPlatform [97] [98] [99] emptyWorld).1 =
      (CreateShortcut uncheckedPlatform [97] [98] [99] emptyWorld).1 ∧
    ((callsMade emptyWorld (CreateShortcut uncheckedPlatform [97] [98] [99] emptyWorld).2).filter
      Call.isStage).length = 5 :=
  ⟨by decide, by decide,
   (CreateShortcut_ignores_unchecked_results okPlatform uncheckedPlatform
     [97] [98] [99] [97] [98] [99] emptyWorld emptyWorld rfl rfl rfl rfl rfl).1,
   by decide⟩

/-- C10: for every failing HRESULT `hr` and every stage marker `m`, the exact
sum `hr + m` lies in the signed 32-bit range, so the 32-bit addition `add32`
performed on a failure return equals the mathematical sum. -/
theorem add32_no_overflow (hr : HRESULT) (m : Int) (hneg : hr.val < 0)
    (hm : m ∈ [0x01000000, 0x02000000, 0x03000000, 0x04000000, 0x05000000]) :
    -2147483648 ≤ hr.val + m ∧ hr.val + m ≤ 2147483647 ∧ add32 hr m = hr.val + m := by
  have hlo := hr.lo
  simp only [List.mem_cons, List.mem_singleton, List.not_mem_nil, or_false] at hm
  unfold add32 wrap32
  omega

/-- Witness for C10: `E_ACCESSDENIED + 0x05000000` is computed exactly. -/
theorem add32_no_overflow_witness :
    E_ACCESSDENIED.val < 0 ∧ add32 E_ACCESSDENIED 0x05000000 = -2063138811 :=
  ⟨by decide,
   (add32_no_overflow E_ACCESSDENIED 0x05000000 (by decide) (by decide)).2.2.trans
     (by decide)⟩

end Autostart
